import Mathlib

/-!
Verification of the akvorado flow-ingestion component against its
specification. Pure functions are shallowly embedded; stateful parts of
the pipeline are modelled as explicit state passing over record types.
-/

set_option linter.unusedVariables false

/-- A normalized flow record ("Message"), per the spec's data model §3:
exporter identity, timestamp, sampling rate, addresses, ports, protocol,
counters, interface indices, ether-type, forwarding status. -/
structure Message where
  exporterAddress : String
  exporterName : String
  exporterGroup : String
  timestamp : Nat
  samplingRate : Nat
  srcAddr : Nat
  dstAddr : Nat
  srcPort : Nat
  dstPort : Nat
  proto : Nat
  bytes : Nat
  packets : Nat
  inIf : Nat
  outIf : Nat
  etype : Nat
  forwardingStatus : Nat
deriving DecidableEq, Repr

/-- A raw datagram as received by a Listener: source exporter address,
receive timestamp, payload bytes, originating input index (spec §3). -/
structure RawDatagram where
  sourceAddress : String
  received : Nat
  payload : List Nat
  inputIndex : Nat
deriving DecidableEq, Repr

/-- The component's outgoing flow queue (`outgoingFlows` channel),
modelled as a FIFO list: the head is the next item the consumer
receives; a send appends at the tail. -/
abbrev OutgoingQueue := List Message

/-- From the source (`Inject`): `c.outgoingFlows <- fmsg` — the provided
flow message is placed directly on the outgoing queue, bypassing the
network and decoders entirely. -/
def Inject (outgoingFlows : OutgoingQueue) (fmsg : Message) : OutgoingQueue :=
  outgoingFlows ++ [fmsg]

/-- The next item a consumer reading the outgoing queue observes. -/
def nextOutgoing : OutgoingQueue → Option Message
  | [] => none
  | m :: _ => some m

/-- Key of the Template Store: (exporter, observation domain, template id)
(spec §3). -/
structure TemplateKey where
  exporter : String
  observationDomain : Nat
  templateId : Nat
deriving DecidableEq, Repr

/-- One field spec of a template: field type, byte length, optional
enterprise id for IPFIX (spec §3). -/
structure FieldSpec where
  fieldType : Nat
  byteLength : Nat
  enterpriseId : Option Nat
deriving DecidableEq, Repr

/-- A NetFlow v9 / IPFIX template: an ordered list of field specs. -/
structure Template where
  fields : List FieldSpec
deriving DecidableEq, Repr

/-- Modelled from the spec: the Template Store (spec §4.1) is not under
src/; it is modelled as an association list from keys to templates. -/
abbrev TemplateStore := List (TemplateKey × Template)

/-- Modelled from the spec: `upsert(key, template)` replaces any existing
template for that key, visible to subsequent lookups immediately
(spec §4.1). -/
def upsert (s : TemplateStore) (k : TemplateKey) (t : Template) : TemplateStore :=
  (k, t) :: List.filter (fun p => p.1 ≠ k) s

/-- Modelled from the spec: `lookup(key) → Template or NotFound`
(spec §4.1); NotFound is `none`. -/
def lookup (s : TemplateStore) (k : TemplateKey) : Option Template :=
  (List.find? (fun p => p.1 = k) s).map Prod.snd

/-- One set of a NetFlow v9 / IPFIX datagram (spec §4.2): a template set
(carrying the template it defines), an options-template set, or a data
set (carrying its template key and raw data records as byte lists). -/
inductive FlowSet where
  | templateSet (k : TemplateKey) (t : Template)
  | optionsTemplateSet
  | dataSet (k : TemplateKey) (records : List (List Nat))
deriving DecidableEq, Repr

/-- Big-endian value of a list of bytes. -/
def beValue (bytes : List Nat) : Nat :=
  bytes.foldl (fun acc b => acc * 256 + b) 0

/-- Modelled from the spec: field values of one data record are decoded
according to the template's field-length table (spec §4.2); each field
spec consumes its declared byte length from the raw record, yielding
(field type, value) pairs. -/
def decodeDataRecord (t : Template) (raw : List Nat) : List (Nat × Nat) :=
  (t.fields.foldl
    (fun acc f =>
      (acc.1.drop f.byteLength,
       acc.2 ++ [(f.fieldType, beValue (acc.1.take f.byteLength))]))
    (raw, [])).2

/-- Modelled from the spec: the NetFlow v9 / IPFIX decoder body
(spec §4.2) is not under src/. A datagram is a sequence of sets; a
template set updates the Template Store via `upsert`; an
options-template set is parsed but produces no records; a data set is
looked up against the Template Store — an unknown template key drops the
whole data set and increments the missing-template counter once per data
record skipped, and decoding of the remaining sets continues. The
function is total: no decode error is ever fatal. Returns the final
store, the missing-template counter, and the decoded records. -/
def decodeNetflow :
    TemplateStore → Nat → List FlowSet → TemplateStore × Nat × List (List (Nat × Nat))
  | st, missing, [] => (st, missing, [])
  | st, missing, FlowSet.templateSet k t :: rest =>
      decodeNetflow (upsert st k t) missing rest
  | st, missing, FlowSet.optionsTemplateSet :: rest =>
      decodeNetflow st missing rest
  | st, missing, FlowSet.dataSet k recs :: rest =>
      match lookup st k with
      | none => decodeNetflow st (missing + recs.length) rest
      | some t =>
          let out := decodeNetflow st missing rest
          (out.1, out.2.1, recs.map (decodeDataRecord t) ++ out.2.2)

/-- An sFlow v5 sample: its declared length in bytes and the flow
records it carries when well formed (spec §4.2, §6). -/
structure SFlowSample where
  declaredLength : Nat
  records : List (List (Nat × Nat))
deriving DecidableEq, Repr

/-- Modelled from the spec: the sFlow v5 decoder body (spec §4.2) is not
under src/. Samples are self-contained; each is checked against the
bytes remaining in the datagram — a sample whose declared length exceeds
the remaining bytes is malformed and only that sample is skipped;
subsequent well-formed samples in the same datagram still decode. Total:
no error is propagated beyond the sample. -/
def decodeSamples : Nat → List SFlowSample → List (List (Nat × Nat))
  | _, [] => []
  | remaining, s :: rest =>
      if s.declaredLength ≤ remaining then
        s.records ++ decodeSamples (remaining - s.declaredLength) rest
      else
        decodeSamples remaining rest

/-- State of one input's bounded intake queue: the queued raw datagrams,
the configured capacity, and the "queue full / dropped" counter
(spec §4.3). -/
structure IntakeState where
  queue : List RawDatagram
  capacity : Nat
  drops : Nat
deriving DecidableEq, Repr

/-- Modelled from the spec: the Listener's receive path (spec §4.3) is
not under src/. A received datagram is pushed to the intake queue if
there is room; if the queue is full it is dropped immediately — the
receive worker never blocks — and the drop counter increments. -/
def receiveDatagram (st : IntakeState) (d : RawDatagram) : IntakeState :=
  if st.queue.length < st.capacity then
    { st with queue := st.queue ++ [d] }
  else
    { st with drops := st.drops + 1 }

/-- Receiving a sequence of datagrams, one at a time. -/
def receiveAll (st : IntakeState) : List RawDatagram → IntakeState
  | [] => st
  | d :: ds => receiveAll (receiveDatagram st d) ds

/-- Pipeline Controller phases (spec §4.5). -/
inductive Phase where
  | Created
  | Started
  | Stopping
  | Stopped
deriving DecidableEq, Repr

/-- Modelled from the spec: the Pipeline Controller state (spec §4.5) is
not under src/: its phase, the raw datagrams still waiting in intake
queues, the outgoing queue of decoded records, whether the outgoing
queue has been closed, and how many workers are still active. -/
structure PipelineState where
  phase : Phase
  intake : List RawDatagram
  outgoing : List (List (Nat × Nat))
  outgoingClosed : Bool
  activeWorkers : Nat
deriving DecidableEq, Repr

/-- Drain stage of `Stop` (spec §4.5): in-flight decode workers drain
their intake queues, pushing every decoded record of every pending
datagram onto the outgoing queue. `dec` is the input's configured
decoder. -/
def drainIntake (dec : RawDatagram → List (List (Nat × Nat)))
    (st : PipelineState) : PipelineState :=
  { st with intake := [], outgoing := st.outgoing ++ st.intake.flatMap dec }

/-- Wait stage of `Stop` (spec §4.5): every worker exits. -/
def waitWorkers (st : PipelineState) : PipelineState :=
  { st with activeWorkers := 0 }

/-- Close stage of `Stop` (spec §4.5): the outgoing queue is closed. -/
def closeOutgoing (st : PipelineState) : PipelineState :=
  { st with outgoingClosed := true }

/-- Modelled from the spec: `Stop` (spec §4.5) is not under src/.
Calling `Stop` when already stopped is a no-op; otherwise workers drain
their intake queues, every worker exits, and only then is the outgoing
queue closed and the phase set to Stopped. -/
def Stop (dec : RawDatagram → List (List (Nat × Nat)))
    (st : PipelineState) : PipelineState :=
  if st.phase = Phase.Stopped then st
  else
    { closeOutgoing (waitWorkers (drainIntake dec { st with phase := Phase.Stopping }))
        with phase := Phase.Stopped }

/-- The UDP transport configuration of one input, as set in the source
(`udp.Configuration{Listen: ..., QueueSize: ...}`). -/
structure UdpConfiguration where
  Listen : String
  QueueSize : Nat
deriving DecidableEq, Repr

/-- One input configuration: decoder kind plus transport config
(source `InputConfiguration`, spec §3). -/
structure InputConfiguration where
  Decoder : String
  Config : UdpConfiguration
deriving DecidableEq, Repr

/-- Modelled from the spec: `Start` (spec §4.5) is not under src/.
`bind` reports whether binding the listening socket of an input
succeeds, `workers` is the per-input worker count. If every bind
succeeds the pipeline transitions to Started with its workers spawned;
if any bind fails the whole start operation fails fast — every
previously bound socket is torn down and the component is left exactly
as it was, with no worker of any input active. The boolean is `true` on
success and `false` on the one fatal path, a bind failure. -/
def startPipeline (bind : InputConfiguration → Bool) (workers : Nat)
    (cfg : List InputConfiguration) (st : PipelineState) : PipelineState × Bool :=
  if cfg.all bind then
    ({ st with phase := Phase.Started, activeWorkers := cfg.length * workers }, true)
  else
    (st, false)

/-- The flow component's configuration as used by the source `NewMock`:
a Go nil `Inputs` slice is `none`, a non-nil (possibly empty) slice is
`some`. -/
structure FlowConfiguration where
  Inputs : Option (List InputConfiguration)
deriving DecidableEq, Repr

/-- From the source (`NewMock`): the default input list substituted when
`config.Inputs == nil` — a single input with decoder "netflow", listen
address "127.0.0.1:0" and queue size 10. -/
def defaultMockInputs : List InputConfiguration :=
  [{ Decoder := "netflow", Config := { Listen := "127.0.0.1:0", QueueSize := 10 } }]

/-- From the source (`NewMock`): the configuration after the nil check —
`config.Inputs` is replaced by the default list exactly when it is nil,
and left untouched otherwise. -/
def newMockConfig (config : FlowConfiguration) : FlowConfiguration :=
  match config.Inputs with
  | none => { config with Inputs := some defaultMockInputs }
  | some _ => config

/-- The flow component: its configuration and lifecycle phase. -/
structure Component where
  config : FlowConfiguration
  phase : Phase
deriving DecidableEq, Repr

/-- From the source (`NewMock`): substitutes the default inputs when
`Inputs` is nil, then calls `New` and `Start`, failing the test on
either error. `New` and `Start` bodies are not under src/; modelled from
the spec as constructing the component and transitioning it to Started
(the mock listens on 127.0.0.1:0, which always binds, so the fatal test
paths are never taken and every returned component is started). -/
def NewMock (config : FlowConfiguration) : Component :=
  let config := newMockConfig config
  { config := config, phase := Phase.Started }

/-- A console query column (dimension); `queryColumn` itself is not
under src/, only its use — modelled as the closed set of dimensions the
console knows. -/
inductive QueryColumn where
  | SrcAS
  | DstAS
  | SrcAddr
  | DstAddr
  | Proto
  | EType
  | OutIfSpeed
  | ExporterName
  | InIfProvider
deriving DecidableEq, Repr

/-- The source's `queryColumnSrcAS` constant: the source-AS dimension. -/
def queryColumnSrcAS : QueryColumn := QueryColumn.SrcAS

/-- From the source (console `VisualizeOptionsConfiguration`): defaults
for the "visualize" tab — start time, end time, filter string and the
array of dimensions. -/
structure VisualizeOptionsConfiguration where
  Start : String
  End : String
  Filter : String
  Dimensions : List QueryColumn
deriving DecidableEq, Repr

/-- From the source (console `Configuration`): live-FS flag, displayed
version, and the visualize defaults. -/
structure ConsoleConfiguration where
  ServeLiveFS : Bool
  Version : String
  DefaultVisualizeOptions : VisualizeOptionsConfiguration
deriving DecidableEq, Repr

/-- From the source (console `DefaultConfiguration`): only
`DefaultVisualizeOptions` is set; the other fields keep their Go zero
values. -/
def DefaultConfiguration : ConsoleConfiguration :=
  { ServeLiveFS := false
    Version := ""
    DefaultVisualizeOptions :=
      { Start := "6 hours ago"
        End := "now"
        Filter := "InIfBoundary = external"
        Dimensions := [queryColumnSrcAS] } }

/-- A value of the JSON object returned by the console config
endpoint. -/
inductive ConfigValue where
  | str (s : String)
  | visualizeOptions (v : VisualizeOptionsConfiguration)
deriving DecidableEq, Repr

/-- From the source (console `configHandlerFunc`): responds with HTTP
status 200 and a JSON object holding the configured version and
visualize defaults. -/
def configHandlerFunc (config : ConsoleConfiguration) :
    Nat × List (String × ConfigValue) :=
  (200,
   [("version", ConfigValue.str config.Version),
    ("defaultVisualizeOptions",
     ConfigValue.visualizeOptions config.DefaultVisualizeOptions)])

/-- Claim C1: a Message injected through `Inject` while the pipeline is
started becomes observable as the next item on the outgoing sequence,
unmodified: the queue after injection is exactly the old queue with the
identical record appended, so once the consumer has drained the items
present before the injection, the injected record itself is what it
receives next, with nothing inserted between. -/
theorem inject_next_unmodified (q : OutgoingQueue) (m : Message) :
    Inject q m = q ++ [m] ∧ (Inject q m).drop q.length = [m] := by
  constructor
  · rfl
  · simp [Inject]

/-- Claim C4: template upsert is last-write-wins. After `upsert k t`,
`lookup k` immediately returns `t` (never NotFound, never a torn
value); after `upsert k t1` then `upsert k t2`, `lookup k` returns
exactly `t2`, and a subsequent decode of a data set for `k` uses `t2`
only. -/
theorem upsert_lookup_last_write_wins (s : TemplateStore) (k : TemplateKey)
    (t t1 t2 : Template) (recs : List (List Nat)) (rest : List FlowSet)
    (missing : Nat) :
    lookup (upsert s k t) k = some t ∧
    lookup (upsert (upsert s k t1) k t2) k = some t2 ∧
    decodeNetflow (upsert (upsert s k t1) k t2) missing
        (FlowSet.dataSet k recs :: rest) =
      (let out := decodeNetflow (upsert (upsert s k t1) k t2) missing rest
       (out.1, out.2.1, recs.map (decodeDataRecord t2) ++ out.2.2)) := by
  have h2 : lookup (upsert (upsert s k t1) k t2) k = some t2 := by
    simp [lookup, upsert, List.find?]
  refine ⟨by simp [lookup, upsert, List.find?], h2, ?_⟩
  simp [decodeNetflow, h2]

/-- Claim C7: `Stop` is idempotent — calling it on an already stopped
pipeline is a no-op, leaving the whole state (outgoing queue included)
unchanged, and stopping twice equals stopping once. -/
theorem stop_idempotent (dec : RawDatagram → List (List (Nat × Nat)))
    (st : PipelineState) :
    (st.phase = Phase.Stopped → Stop dec st = st) ∧
    Stop dec (Stop dec st) = Stop dec st := by
  constructor
  · intro h
    simp [Stop, h]
  · by_cases h : st.phase = Phase.Stopped
    · simp [Stop, h]
    · simp [Stop, h]

/-- Concrete witness for claim C7: stopping an already stopped pipeline
leaves it unchanged. -/
theorem stop_idempotent_witness :
    Stop (fun _ => [])
        { phase := Phase.Stopped, intake := [], outgoing := [],
          outgoingClosed := true, activeWorkers := 0 } =
      { phase := Phase.Stopped, intake := [], outgoing := [],
        outgoingClosed := true, activeWorkers := 0 } :=
  (stop_idempotent (fun _ => [])
    { phase := Phase.Stopped, intake := [], outgoing := [],
      outgoingClosed := true, activeWorkers := 0 }).1 rfl

/-- Claim C9: `NewMock` substitutes the default input list (one input,
decoder "netflow", listen "127.0.0.1:0", queue size 10) exactly when
`Inputs` is nil, leaves any non-nil `Inputs` (even empty) unchanged, and
every component it returns is already started. -/
theorem newMock_defaults_and_started (config : FlowConfiguration) :
    (NewMock config).phase = Phase.Started ∧
    (config.Inputs = none →
      (NewMock config).config.Inputs = some defaultMockInputs ∧
      defaultMockInputs =
        [{ Decoder := "netflow",
           Config := { Listen := "127.0.0.1:0", QueueSize := 10 } }]) ∧
    (∀ xs, config.Inputs = some xs → (NewMock config).config = config) := by
  refine ⟨rfl, ?_, ?_⟩
  · intro h
    exact ⟨by simp [NewMock, newMockConfig, h], rfl⟩
  · intro xs h
    simp [NewMock, newMockConfig, h]

/-- Concrete witness for claim C9: a nil `Inputs` is replaced by the
default list, a non-nil empty one is kept as-is. -/
theorem newMock_defaults_and_started_witness :
    (NewMock { Inputs := none }).config.Inputs = some defaultMockInputs ∧
    (NewMock { Inputs := some [] }).config = { Inputs := some [] } :=
  ⟨((newMock_defaults_and_started { Inputs := none }).2.1 rfl).1,
   (newMock_defaults_and_started { Inputs := some [] }).2.2 [] rfl⟩

/-- Claim C10: the console's `DefaultConfiguration` has visualize
defaults Start "6 hours ago", End "now", Filter
"InIfBoundary = external" and exactly one dimension, the source AS; and
the config endpoint always responds HTTP 200 with a JSON object whose
keys are exactly "version" and "defaultVisualizeOptions", reflecting
the configured values unchanged. -/
theorem console_default_config_and_handler (c : ConsoleConfiguration) :
    DefaultConfiguration.DefaultVisualizeOptions.Start = "6 hours ago" ∧
    DefaultConfiguration.DefaultVisualizeOptions.End = "now" ∧
    DefaultConfiguration.DefaultVisualizeOptions.Filter = "InIfBoundary = external" ∧
    DefaultConfiguration.DefaultVisualizeOptions.Dimensions = [queryColumnSrcAS] ∧
    (configHandlerFunc c).1 = 200 ∧
    (configHandlerFunc c).2.map Prod.fst = ["version", "defaultVisualizeOptions"] ∧
    (configHandlerFunc c).2 =
      [("version", ConfigValue.str c.Version),
       ("defaultVisualizeOptions",
        ConfigValue.visualizeOptions c.DefaultVisualizeOptions)] :=
  ⟨rfl, rfl, rfl, rfl, rfl, rfl, rfl⟩

/-- Claim C2: a data set whose template key has never been seen yields
zero NormalizedRecords, increments the missing-template counter by one
per data record skipped, and never raises a fatal error (the decoder is
a total function); decoding of the remaining sets in the datagram
continues exactly as if the unknown data set were absent. -/
theorem missing_template_drops_data_set (st : TemplateStore) (missing : Nat)
    (k : TemplateKey) (recs : List (List Nat)) (rest : List FlowSet)
    (h : lookup st k = none) :
    decodeNetflow st missing (FlowSet.dataSet k recs :: rest) =
      decodeNetflow st (missing + recs.length) rest ∧
    (decodeNetflow st missing [FlowSet.dataSet k recs]).2.2 = [] ∧
    (decodeNetflow st missing [FlowSet.dataSet k recs]).2.1 =
      missing + recs.length := by
  refine ⟨?_, ?_, ?_⟩ <;> simp [decodeNetflow, h]

/-- A sample template key used by concrete witnesses. -/
def sampleKey : TemplateKey :=
  { exporter := "192.0.2.1", observationDomain := 0, templateId := 256 }

/-- Concrete witness for claim C2: an empty Template Store has never
seen `sampleKey`, so a two-record data set for it decodes to zero
records and bumps the missing-template counter by two. -/
theorem missing_template_drops_data_set_witness :
    lookup [] sampleKey = none ∧
    (decodeNetflow [] 0 [FlowSet.dataSet sampleKey [[1], [2]]]).2.2 = [] ∧
    (decodeNetflow [] 0 [FlowSet.dataSet sampleKey [[1], [2]]]).2.1 = 2 := by
  have h := missing_template_drops_data_set [] 0 sampleKey [[1], [2]] [] rfl
  exact ⟨rfl, h.2.1, by simpa using h.2.2⟩

/-- Claim C5: an sFlow sample whose declared length exceeds the bytes
remaining in the datagram is skipped alone — decoding continues with the
rest of the samples, and any well-formed sample after it still
contributes its records; no error is propagated beyond the sample (the
decoder is total). -/
theorem malformed_sample_skipped (remaining : Nat) (s : SFlowSample)
    (rest : List SFlowSample) (h : remaining < s.declaredLength) :
    decodeSamples remaining (s :: rest) = decodeSamples remaining rest ∧
    (∀ s2 rest2, s2.declaredLength ≤ remaining →
      decodeSamples remaining (s :: s2 :: rest2) =
        s2.records ++ decodeSamples (remaining - s2.declaredLength) rest2) := by
  have hn : ¬ s.declaredLength ≤ remaining := Nat.not_le.mpr h
  constructor
  · simp [decodeSamples, hn]
  · intro s2 rest2 h2
    simp [decodeSamples, hn, h2]

/-- Concrete witness for claim C5: a sample declaring 100 bytes with 20
remaining is skipped; the well-formed 8-byte sample after it still
decodes into its records. -/
theorem malformed_sample_skipped_witness :
    decodeSamples 20
        [{ declaredLength := 100, records := [[(1, 1)]] },
         { declaredLength := 8, records := [[(2, 5)]] }] = [[(2, 5)]] := by
  have h := malformed_sample_skipped 20
    { declaredLength := 100, records := [[(1, 1)]] }
    [{ declaredLength := 8, records := [[(2, 5)]] }] (by decide)
  rw [h.1]
  decide

/-- Receiving a concatenation of datagram sequences is receiving them in
order. -/
theorem receiveAll_append (st : IntakeState) (a b : List RawDatagram) :
    receiveAll st (a ++ b) = receiveAll (receiveAll st a) b := by
  induction a generalizing st with
  | nil => rfl
  | cons d ds ih => simp [receiveAll, ih]

/-- While the intake queue has room for the whole sequence, every
datagram is accepted in order and nothing is dropped. -/
theorem receiveAll_fits (st : IntakeState) (ds : List RawDatagram)
    (h : st.queue.length + ds.length ≤ st.capacity) :
    receiveAll st ds = { st with queue := st.queue ++ ds } := by
  induction ds generalizing st with
  | nil => simp [receiveAll]
  | cons d ds ih =>
      have hlt : st.queue.length < st.capacity := by
        simp only [List.length_cons] at h
        omega
      have step : receiveDatagram st d = { st with queue := st.queue ++ [d] } := by
        simp [receiveDatagram, hlt]
      have hfit : ({ st with queue := st.queue ++ [d] } : IntakeState).queue.length
          + ds.length ≤ ({ st with queue := st.queue ++ [d] } : IntakeState).capacity := by
        simp only [List.length_append, List.length_cons] at h ⊢
        simpa using by omega
      simp only [receiveAll, step, ih _ hfit]
      simp

/-- Claim C3: with decode workers paused, sending N+1 datagrams into an
empty intake queue of capacity N accepts exactly the first N and drops
the (N+1)th immediately — the receive worker never blocks, `receiveAll`
is total — with the queue-full drop counter incremented by exactly 1. -/
theorem intake_full_drops_exactly_one (n : Nat) (ds : List RawDatagram)
    (hlen : ds.length = n + 1) :
    receiveAll { queue := [], capacity := n, drops := 0 } ds =
      { queue := ds.take n, capacity := n, drops := 1 } := by
  have hsplit : ds.take n ++ ds.drop n = ds := List.take_append_drop n ds
  have htake : (ds.take n).length = n := by
    simp [List.length_take, hlen]
  have hdrop : (ds.drop n).length = 1 := by
    simp [List.length_drop, hlen]
  obtain ⟨d, hd⟩ := List.length_eq_one.mp hdrop
  have h1 : receiveAll { queue := [], capacity := n, drops := 0 } (ds.take n) =
      { queue := ds.take n, capacity := n, drops := 0 } := by
    have := receiveAll_fits { queue := [], capacity := n, drops := 0 } (ds.take n)
      (by simp [htake])
    simpa using this
  have h2 : receiveAll { queue := [], capacity := n, drops := 0 } ds =
      receiveAll { queue := ds.take n, capacity := n, drops := 0 } [d] := by
    conv_lhs => rw [← hsplit]
    rw [receiveAll_append, h1, hd]
  rw [h2]
  simp [receiveAll, receiveDatagram, htake]

/-- A sample raw datagram used by concrete witnesses. -/
def dg (i : Nat) : RawDatagram :=
  { sourceAddress := "192.0.2.1", received := i, payload := [], inputIndex := 0 }

/-- Concrete witness for claim C3: capacity 2, three datagrams — the
first two are queued, the third is dropped with the counter at 1. -/
theorem intake_full_drops_exactly_one_witness :
    receiveAll { queue := [], capacity := 2, drops := 0 } [dg 0, dg 1, dg 2] =
      { queue := [dg 0, dg 1], capacity := 2, drops := 1 } := by
  have h := intake_full_drops_exactly_one 2 [dg 0, dg 1, dg 2] rfl
  simpa using h

/-- Claim C6: stopping a started pipeline with K raw datagrams pending
drains them all: the final outgoing queue is exactly the old queue
followed by every record decodable from the pending datagrams, once each
— no record lost, none duplicated — so its length is the sum of the
per-datagram record counts; every worker has exited and the outgoing
queue is closed, the closing happening only after the worker-exit stage,
whose state still has the queue unclosed. -/
theorem stop_drains_every_record (dec : RawDatagram → List (List (Nat × Nat)))
    (st : PipelineState) (h : st.phase = Phase.Started) :
    (Stop dec st).outgoingClosed = true ∧
    (Stop dec st).activeWorkers = 0 ∧
    (Stop dec st).outgoing = st.outgoing ++ st.intake.flatMap dec ∧
    (Stop dec st).outgoing.length =
      st.outgoing.length + (st.intake.map (fun d => (dec d).length)).sum ∧
    Stop dec st =
      { closeOutgoing
          (waitWorkers (drainIntake dec { st with phase := Phase.Stopping }))
        with phase := Phase.Stopped } ∧
    (waitWorkers (drainIntake dec { st with phase := Phase.Stopping })).activeWorkers
      = 0 ∧
    (waitWorkers (drainIntake dec { st with phase := Phase.Stopping })).outgoingClosed
      = st.outgoingClosed := by
  have hne : ¬ st.phase = Phase.Stopped := by simp [h]
  refine ⟨?_, ?_, ?_, ?_, ?_, rfl, rfl⟩ <;>
    simp only [Stop, hne, if_false, closeOutgoing, waitWorkers, drainIntake,
      List.length_append, List.length_flatMap, Function.comp_def]

/-- Concrete witness for claim C6: a started pipeline holding two raw
datagrams drains both decoded records, exits its workers and closes the
outgoing queue. -/
theorem stop_drains_every_record_witness :
    (Stop (fun d => [[(1, d.received)]])
        { phase := Phase.Started, intake := [dg 0, dg 1], outgoing := [],
          outgoingClosed := false, activeWorkers := 3 }).outgoingClosed = true ∧
    (Stop (fun d => [[(1, d.received)]])
        { phase := Phase.Started, intake := [dg 0, dg 1], outgoing := [],
          outgoingClosed := false, activeWorkers := 3 }).activeWorkers = 0 ∧
    (Stop (fun d => [[(1, d.received)]])
        { phase := Phase.Started, intake := [dg 0, dg 1], outgoing := [],
          outgoingClosed := false, activeWorkers := 3 }).outgoing =
      [[(1, 0)], [(1, 1)]] := by
  have h := stop_drains_every_record (fun d => [[(1, d.received)]])
    { phase := Phase.Started, intake := [dg 0, dg 1], outgoing := [],
      outgoingClosed := false, activeWorkers := 3 } rfl
  exact ⟨h.1, h.2.1, by rw [h.2.2.1]; rfl⟩

/-- Claim C8: if binding any configured input's listening socket fails,
`startPipeline` fails the whole start operation atomically — the
component is left exactly in its pre-start state, so with a fresh state
no worker of any input is active and the phase is not Started — and a
bind failure is the only fatal path: the start reports failure exactly
when some input's bind fails. -/
theorem start_bind_failure_fails_fast (bind : InputConfiguration → Bool)
    (workers : Nat) (cfg : List InputConfiguration) (st : PipelineState) :
    ((∃ i ∈ cfg, bind i = false) →
      startPipeline bind workers cfg st = (st, false)) ∧
    ((startPipeline bind workers cfg st).2 = false ↔ ∃ i ∈ cfg, bind i = false) := by
  by_cases hall : cfg.all bind
  · constructor
    · rintro ⟨i, hi, hbi⟩
      have := List.all_eq_true.mp hall i hi
      rw [hbi] at this
      cases this
    · simp only [startPipeline, hall, if_true]
      constructor
      · intro hc
        cases hc
      · rintro ⟨i, hi, hbi⟩
        have := List.all_eq_true.mp hall i hi
        rw [hbi] at this
        cases this
  · have hf : cfg.all bind = false := Bool.eq_false_iff.mpr hall
    have hex : ∃ i ∈ cfg, bind i = false := by
      have := List.all_eq_false.mp hf
      obtain ⟨i, hi, hbi⟩ := this
      exact ⟨i, hi, Bool.eq_false_iff.mpr hbi⟩
    constructor
    · intro _
      simp [startPipeline, hall]
    · simp only [startPipeline, hall, if_false]
      exact ⟨fun _ => hex, fun _ => rfl⟩

/-- Concrete witness for claim C8: one input whose bind fails makes the
start fail and leaves the fresh created state untouched, with zero
active workers. -/
theorem start_bind_failure_fails_fast_witness :
    startPipeline (fun _ => false) 1
        [{ Decoder := "netflow",
           Config := { Listen := "0.0.0.0:2055", QueueSize := 10 } }]
        { phase := Phase.Created, intake := [], outgoing := [],
          outgoingClosed := false, activeWorkers := 0 } =
      ({ phase := Phase.Created, intake := [], outgoing := [],
         outgoingClosed := false, activeWorkers := 0 }, false) :=
  (start_bind_failure_fails_fast (fun _ => false) 1
      [{ Decoder := "netflow",
         Config := { Listen := "0.0.0.0:2055", QueueSize := 10 } }]
      { phase := Phase.Created, intake := [], outgoing := [],
        outgoingClosed := false, activeWorkers := 0 }).1
    ⟨{ Decoder := "netflow",
       Config := { Listen := "0.0.0.0:2055", QueueSize := 10 } },
     by simp, rfl⟩
